import Mathlib

/-!
Verification development for the two trading strategy modules of this
repository: `src/strategies/RSI5MinStrategy/__init__.py` (variant A) and
`src/strategies/TemaTrendFollowing/__init__.py` (variant B).

The strategies are shallowly embedded as pure functions over
  * a context record (`Ctx`) holding the framework-supplied per-bar state
    (candles, close price, account figures, position, ...),
  * an indicator record (`Ind`) holding the external indicator library
    (`jesse.indicators`): each indicator is an arbitrary function from a
    candle list (and period) to a rational value, since the numeric
    definitions of RSI/EMA/ATR/TEMA/ADX/CMO are out of scope,
  * a utilities record (`Utils`) for the external sizing helpers
    `jesse.utils.risk_to_qty` and `jesse.utils.size_to_qty`.
Prices and indicator values are modelled as rationals.  A fallible candle
fetch (`self.get_candles`) is modelled as an `Option` of the candle list;
Python try/except recovery becomes a `match` on that option, and Python
code that lets the failure escape becomes an `Option`-valued evaluation.
Order placement (`self.buy = ...`) is modelled by returning `some` of the
(qty, price) pair, while the guarded early `return` paths yield `none`.
-/

/-- One OHLCV price bar, supplied externally (spec section 3). -/
structure Bar where
  bar_open : ℚ
  bar_high : ℚ
  bar_low : ℚ
  bar_close : ℚ
  bar_volume : ℚ
  bar_timestamp : ℚ
deriving DecidableEq, Repr

/-- Side of an open position. -/
inductive Side where
  | long
  | short
deriving DecidableEq, Repr

/-- The position record the framework exposes to a strategy. -/
structure Position where
  is_open : Bool
  side : Side
  qty : ℚ
  entry_price : ℚ
deriving DecidableEq, Repr

/-- Exchange type as exposed by the framework (spec section 6). -/
inductive ExchangeType where
  | spot
  | futures
deriving DecidableEq, Repr

/-- External sizing utilities `jesse.utils.risk_to_qty` (capital,
risk percentage, entry price, stop price, fee rate) and
`jesse.utils.size_to_qty` (capital fraction, price, fee rate). -/
structure Utils where
  risk_to_qty : ℚ → ℚ → ℚ → ℚ → ℚ → ℚ
  size_to_qty : ℚ → ℚ → ℚ → ℚ

/-- The last `n` elements of a list, mirroring the Python slice
`l[-n:]` (which returns the whole list when `n` exceeds its length). -/
def lastN (l : List ℚ) (n : Nat) : List ℚ := l.drop (l.length - n)

/-- Number of adjacent pairs that strictly increase, mirroring the loop
`for i in range(1, len(r)): if r[i] > r[i-1]: count += 1`. -/
def countIncreases : List ℚ → Nat
  | a :: b :: t => (if a < b then 1 else 0) + countIncreases (b :: t)
  | _ => 0

/-- Number of adjacent pairs that strictly decrease, mirroring the loop
`for i in range(1, len(r)): if r[i] < r[i-1]: count += 1`. -/
def countDecreases : List ℚ → Nat
  | a :: b :: t => (if b < a then 1 else 0) + countDecreases (b :: t)
  | _ => 0

/-- Capital selection as worded in the specification (section 4.3 /
claim side of the refinement): leveraged available margin on
margin/futures instruments, plain balance on spot. -/
def spec_capital_source (et : ExchangeType) (balance lev : ℚ) : ℚ :=
  match et with
  | .spot => balance
  | .futures => lev

namespace RSI5Min

/-- Hyperparameters of `RSI5MinStrategy.hyperparameters` (source lines
24-52), with their code defaults captured in `defaultHP`. -/
structure HP where
  rsi_period : Nat
  rsi_overbought : ℚ
  rsi_oversold : ℚ
  rsi_momentum_period : Nat
  entry_confirmation_candles : Nat
  trend_ema_fast : Nat
  trend_ema_slow : Nat
  use_trend_filter : Bool
  higher_tf_period : Nat
  risk_percentage : ℚ
  atr_period : Nat
  stop_loss_atr_mult : ℚ
  take_profit_atr_mult : ℚ
  use_volume_filter : Bool
  max_hold_candles : Nat
  max_capital_per_trade : ℚ
deriving DecidableEq, Repr

/-- The `default` entries of the hyperparameter list (source lines 24-52):
in particular `stop_loss_atr_mult = 2.0` and `take_profit_atr_mult = 3.0`. -/
def defaultHP : HP :=
  ⟨14, 70, 30, 3, 2, 34, 100, true, 100, 1, 14, 2, 3, false, 50, 3/20⟩

/-- The declared min/max bounds of the hyperparameter list
(source lines 24-52). -/
structure HPInBounds (hp : HP) : Prop where
  rsi_period_lb : 10 ≤ hp.rsi_period
  rsi_period_ub : hp.rsi_period ≤ 20
  rsi_overbought_lb : 65 ≤ hp.rsi_overbought
  rsi_overbought_ub : hp.rsi_overbought ≤ 85
  rsi_oversold_lb : 15 ≤ hp.rsi_oversold
  rsi_oversold_ub : hp.rsi_oversold ≤ 35
  rsi_momentum_period_lb : 2 ≤ hp.rsi_momentum_period
  rsi_momentum_period_ub : hp.rsi_momentum_period ≤ 5
  entry_confirmation_lb : 1 ≤ hp.entry_confirmation_candles
  entry_confirmation_ub : hp.entry_confirmation_candles ≤ 3
  trend_ema_fast_lb : 20 ≤ hp.trend_ema_fast
  trend_ema_fast_ub : hp.trend_ema_fast ≤ 50
  trend_ema_slow_lb : 50 ≤ hp.trend_ema_slow
  trend_ema_slow_ub : hp.trend_ema_slow ≤ 200
  higher_tf_period_lb : 50 ≤ hp.higher_tf_period
  higher_tf_period_ub : hp.higher_tf_period ≤ 200
  risk_percentage_lb : 1/2 ≤ hp.risk_percentage
  risk_percentage_ub : hp.risk_percentage ≤ 2
  atr_period_lb : 10 ≤ hp.atr_period
  atr_period_ub : hp.atr_period ≤ 20
  stop_loss_atr_mult_lb : 1 ≤ hp.stop_loss_atr_mult
  stop_loss_atr_mult_ub : hp.stop_loss_atr_mult ≤ 3
  take_profit_atr_mult_lb : 3/2 ≤ hp.take_profit_atr_mult
  take_profit_atr_mult_ub : hp.take_profit_atr_mult ≤ 4
  max_hold_candles_lb : 20 ≤ hp.max_hold_candles
  max_hold_candles_ub : hp.max_hold_candles ≤ 100
  max_capital_per_trade_lb : 1/20 ≤ hp.max_capital_per_trade
  max_capital_per_trade_ub : hp.max_capital_per_trade ≤ 1/2

/-- Per-bar framework state read by `RSI5MinStrategy`.  `get15m` is the
result of `self.get_candles(self.exchange, self.symbol, '15m')`, `none`
when that call fails.  `entry_candle_index` is `self._entry_candle_index`
when the attribute is set (`hasattr`), else `none`; `liquidation_price`
is `none` when the attribute is missing or `None`. -/
structure Ctx where
  candles : List Bar
  get15m : Option (List Bar)
  close : ℚ
  volume : ℚ
  index : Nat
  exchange_type : ExchangeType
  balance : ℚ
  leveraged_available_margin : ℚ
  fee_rate : ℚ
  liquidation_price : Option ℚ
  position : Position
  entry_candle_index : Option Nat

/-- External indicator library used by variant A (`jesse.indicators`). -/
structure Ind where
  rsi : List Bar → Nat → ℚ
  rsi_seq : List Bar → Nat → List ℚ
  ema : List Bar → Nat → ℚ
  sma_volume : List Bar → Nat → ℚ
  atr : List Bar → Nat → ℚ

/-- `self.is_long` - the open position is on the long side. -/
def is_long (ctx : Ctx) : Bool :=
  ctx.position.is_open && (ctx.position.side == Side.long)

/-- `self.is_short` - the open position is on the short side. -/
def is_short (ctx : Ctx) : Bool :=
  ctx.position.is_open && (ctx.position.side == Side.short)

/-- `self.rsi` (source lines 56-60). -/
def rsi (hp : HP) (ctx : Ctx) (ind : Ind) : ℚ :=
  ind.rsi ctx.candles hp.rsi_period

/-- `self.rsi_seq` (source lines 62-66). -/
def rsi_seq (hp : HP) (ctx : Ctx) (ind : Ind) : List ℚ :=
  ind.rsi_seq ctx.candles hp.rsi_period

/-- `self.ema_fast` (source lines 68-72). -/
def ema_fast (hp : HP) (ctx : Ctx) (ind : Ind) : ℚ :=
  ind.ema ctx.candles hp.trend_ema_fast

/-- `self.ema_slow` (source lines 74-78). -/
def ema_slow (hp : HP) (ctx : Ctx) (ind : Ind) : ℚ :=
  ind.ema ctx.candles hp.trend_ema_slow

/-- `self.atr` (source lines 80-84). -/
def atr (hp : HP) (ctx : Ctx) (ind : Ind) : ℚ :=
  ind.atr ctx.candles hp.atr_period

/-- `self.volume_sma` (source lines 86-90): 20-bar volume SMA. -/
def volume_sma (ctx : Ctx) (ind : Ind) : ℚ :=
  ind.sma_volume ctx.candles 20

/-- `self.higher_tf_ema` (source lines 92-102): EMA on the 15-minute
candles, falling back to the primary-timeframe candles when the
`get_candles` call fails (the try/except block). -/
def higher_tf_ema (hp : HP) (ctx : Ctx) (ind : Ind) : ℚ :=
  match ctx.get15m with
  | some htf_candles => ind.ema htf_candles hp.higher_tf_period
  | none => ind.ema ctx.candles hp.higher_tf_period

/-- `rsi_momentum_bullish` (source lines 106-119). -/
def rsi_momentum_bullish (hp : HP) (ctx : Ctx) (ind : Ind) : Bool :=
  let seq := rsi_seq hp ctx ind
  if seq.length < hp.rsi_momentum_period + 1 then false
  else
    let recent := lastN seq (hp.rsi_momentum_period + 1)
    decide (countIncreases recent ≥ (recent.length - 1) / 2)

/-- `rsi_momentum_bearish` (source lines 121-134). -/
def rsi_momentum_bearish (hp : HP) (ctx : Ctx) (ind : Ind) : Bool :=
  let seq := rsi_seq hp ctx ind
  if seq.length < hp.rsi_momentum_period + 1 then false
  else
    let recent := lastN seq (hp.rsi_momentum_period + 1)
    decide (countDecreases recent ≥ (recent.length - 1) / 2)

/-- `trend_direction` (source lines 136-152): 1 bullish, -1 bearish,
0 neutral. -/
def trend_direction (hp : HP) (ctx : Ctx) (ind : Ind) : Int :=
  if !hp.use_trend_filter then 0
  else
    let primary : Int := if ema_slow hp ctx ind < ema_fast hp ctx ind then 1 else -1
    let htf : Int := if higher_tf_ema hp ctx ind < ctx.close then 1 else -1
    if primary = htf then primary else 0

/-- `volume_confirmation` (source lines 154-160). -/
def volume_confirmation (hp : HP) (ctx : Ctx) (ind : Ind) : Bool :=
  if !hp.use_volume_filter then true
  else decide (ctx.volume > volume_sma ctx ind * (6/5))

/-- `should_long` (source lines 170-198). -/
def should_long (hp : HP) (ctx : Ctx) (ind : Ind) : Bool :=
  if hp.rsi_oversold ≤ rsi hp ctx ind then false
  else if !rsi_momentum_bullish hp ctx ind then false
  else if hp.use_trend_filter && decide (trend_direction hp ctx ind = -1) then false
  else if !volume_confirmation hp ctx ind then false
  else if hp.use_trend_filter && decide (ctx.close < ema_fast hp ctx ind * (499/500)) then false
  else true

/-- `should_short` (source lines 200-234). -/
def should_short (hp : HP) (ctx : Ctx) (ind : Ind) : Bool :=
  if ctx.exchange_type == ExchangeType.spot then false
  else if rsi hp ctx ind ≤ hp.rsi_overbought then false
  else if !rsi_momentum_bearish hp ctx ind then false
  else if hp.use_trend_filter && decide (trend_direction hp ctx ind = 1) then false
  else if !volume_confirmation hp ctx ind then false
  else if hp.use_trend_filter && decide (ema_fast hp ctx ind * (501/500) < ctx.close) then false
  else true

/-- The safety clamp of `go_long`/`go_short` (source lines 267 and 309):
`final_qty = min(qty, max_qty)`. -/
def clamp_qty (qty max_qty : ℚ) : ℚ := min qty max_qty

/-- Capital source of `go_long` (source lines 246-251): leveraged
available margin on futures, plain balance otherwise. -/
def capital_long (ctx : Ctx) : ℚ :=
  if ctx.exchange_type == ExchangeType.futures then ctx.leveraged_available_margin
  else ctx.balance

/-- Capital source of `go_short` (source lines 291-293): always the
leveraged available margin (shorts are futures-only). -/
def capital_short (ctx : Ctx) : ℚ :=
  ctx.leveraged_available_margin

/-- The quantity `go_long` computes after risk sizing and the safety
clamp (source lines 240-267). -/
def final_qty_long (hp : HP) (ctx : Ctx) (ind : Ind) (u : Utils) : ℚ :=
  let entry_price := ctx.close
  let stop_loss_price := entry_price - atr hp ctx ind * hp.stop_loss_atr_mult
  let capital := capital_long ctx
  let qty := u.risk_to_qty capital hp.risk_percentage entry_price stop_loss_price ctx.fee_rate
  let max_position_size := capital * hp.max_capital_per_trade
  let max_qty := u.size_to_qty max_position_size entry_price ctx.fee_rate
  clamp_qty qty max_qty

/-- `go_long` (source lines 238-277): `some (qty, price)` models the
`self.buy` assignment; `none` models the guarded early return. -/
def go_long (hp : HP) (ctx : Ctx) (ind : Ind) (u : Utils) : Option (ℚ × ℚ) :=
  if final_qty_long hp ctx ind u ≤ 0 then none
  else some (final_qty_long hp ctx ind u, ctx.close)

/-- The quantity `go_short` computes after risk sizing and the safety
clamp (source lines 285-309). -/
def final_qty_short (hp : HP) (ctx : Ctx) (ind : Ind) (u : Utils) : ℚ :=
  let entry_price := ctx.close
  let stop_loss_price := entry_price + atr hp ctx ind * hp.stop_loss_atr_mult
  let capital := capital_short ctx
  let qty := u.risk_to_qty capital hp.risk_percentage entry_price stop_loss_price ctx.fee_rate
  let max_position_size := capital * hp.max_capital_per_trade
  let max_qty := u.size_to_qty max_position_size entry_price ctx.fee_rate
  clamp_qty qty max_qty

/-- `go_short` (source lines 279-319): `some (qty, price)` models the
`self.sell` assignment; `none` models the early returns (spot exchange,
or non-positive final quantity). -/
def go_short (hp : HP) (ctx : Ctx) (ind : Ind) (u : Utils) : Option (ℚ × ℚ) :=
  if ctx.exchange_type == ExchangeType.spot then none
  else if final_qty_short hp ctx ind u ≤ 0 then none
  else some (final_qty_short hp ctx ind u, ctx.close)

/-- `on_open_position` (source lines 327-342): the pair of
(`self.stop_loss`, `self.take_profit`) assignments, each a (qty, price)
pair. -/
def on_open_position (hp : HP) (ctx : Ctx) (ind : Ind) : (ℚ × ℚ) × (ℚ × ℚ) :=
  let entry_price := ctx.position.entry_price
  if is_long ctx then
    ((ctx.position.qty, entry_price - atr hp ctx ind * hp.stop_loss_atr_mult),
     (ctx.position.qty, entry_price + atr hp ctx ind * hp.take_profit_atr_mult))
  else
    ((ctx.position.qty, entry_price + atr hp ctx ind * hp.stop_loss_atr_mult),
     (ctx.position.qty, entry_price - atr hp ctx ind * hp.take_profit_atr_mult))

/-- Exit reasons of `update_position`, in the code's priority order. -/
inductive ExitReason where
  | liquidationGuard
  | maxHold
  | rsiExhaustion
  | trendReversal
deriving DecidableEq, Repr

/-- The liquidation-proximity condition of `update_position`
(source lines 349-358). -/
def liq_cond (ctx : Ctx) : Bool :=
  (ctx.exchange_type == ExchangeType.futures) &&
  (match ctx.liquidation_price with
   | some lp =>
       (is_long ctx && decide (ctx.close ≤ lp * (11/10))) ||
       (is_short ctx && decide (lp * (9/10) ≤ ctx.close))
   | none => false)

/-- The max-hold timeout condition of `update_position`
(source lines 360-366). -/
def hold_cond (hp : HP) (ctx : Ctx) : Bool :=
  match ctx.entry_candle_index with
  | some ec => decide ((hp.max_hold_candles : Int) ≤ (ctx.index : Int) - (ec : Int))
  | none => false

/-- The long-side RSI exhaustion condition of `update_position`
(source lines 369-374). -/
def long_exhaust_cond (hp : HP) (ctx : Ctx) (ind : Ind) : Bool :=
  is_long ctx &&
    (decide (hp.rsi_overbought ≤ rsi hp ctx ind) ||
     (decide ((60:ℚ) < rsi hp ctx ind) && rsi_momentum_bearish hp ctx ind))

/-- The short-side RSI exhaustion condition of `update_position`
(source lines 376-381). -/
def short_exhaust_cond (hp : HP) (ctx : Ctx) (ind : Ind) : Bool :=
  is_short ctx &&
    (decide (rsi hp ctx ind ≤ hp.rsi_oversold) ||
     (decide (rsi hp ctx ind < (40:ℚ)) && rsi_momentum_bullish hp ctx ind))

/-- The long-side trend-reversal condition of `update_position`
(source lines 384-389). -/
def long_trend_cond (hp : HP) (ctx : Ctx) (ind : Ind) : Bool :=
  hp.use_trend_filter && is_long ctx &&
    decide (trend_direction hp ctx ind = -1) &&
    decide (ctx.close < ema_fast hp ctx ind)

/-- The short-side trend-reversal condition of `update_position`
(source lines 391-395). -/
def short_trend_cond (hp : HP) (ctx : Ctx) (ind : Ind) : Bool :=
  hp.use_trend_filter && is_short ctx &&
    decide (trend_direction hp ctx ind = 1) &&
    decide (ema_fast hp ctx ind < ctx.close)

/-- `update_position` (source lines 344-395): the list of liquidate
instructions issued this bar, tagged with their reason; each
`self.liquidate(); return` becomes a singleton result. -/
def update_position (hp : HP) (ctx : Ctx) (ind : Ind) : List ExitReason :=
  if !ctx.position.is_open then []
  else if liq_cond ctx then [ExitReason.liquidationGuard]
  else if hold_cond hp ctx then [ExitReason.maxHold]
  else if long_exhaust_cond hp ctx ind then [ExitReason.rsiExhaustion]
  else if short_exhaust_cond hp ctx ind then [ExitReason.rsiExhaustion]
  else if long_trend_cond hp ctx ind then [ExitReason.trendReversal]
  else if short_trend_cond hp ctx ind then [ExitReason.trendReversal]
  else []

/-- Priority-3 trigger of the claimed exit order: RSI exhaustion on
either side. -/
def exhaustion_trigger (hp : HP) (ctx : Ctx) (ind : Ind) : Bool :=
  long_exhaust_cond hp ctx ind || short_exhaust_cond hp ctx ind

/-- Priority-4 trigger of the claimed exit order: trend reversal on
either side. -/
def trend_trigger (hp : HP) (ctx : Ctx) (ind : Ind) : Bool :=
  long_trend_cond hp ctx ind || short_trend_cond hp ctx ind

end RSI5Min

namespace TemaTF

/-- Hyperparameters of `TemaTrendFollowing.hyperparameters` (source
lines 6-27), with their code defaults captured in `defaultHP`. -/
structure HP where
  tema_short_period : Nat
  tema_medium_period : Nat
  tema_long_4h_short : Nat
  tema_long_4h_long : Nat
  adx_threshold : ℚ
  cmo_upper_threshold : ℚ
  cmo_lower_threshold : ℚ
  entry_atr_offset : ℚ
  stop_loss_atr_mult : ℚ
  take_profit_atr_mult : ℚ
  risk_percentage : ℚ
  position_multiplier : ℚ
deriving DecidableEq, Repr

/-- The `default` entries of the hyperparameter list (source lines 6-27). -/
def defaultHP : HP := ⟨10, 80, 20, 70, 40, 40, -40, 1, 4, 3, 3, 3⟩

/-- Per-bar framework state read by `TemaTrendFollowing`.  `get4h` is
the result of `self.get_candles(self.exchange, self.symbol, '4h')`,
`none` when that call fails. -/
structure Ctx where
  candles : List Bar
  get4h : Option (List Bar)
  price : ℚ
  fee_rate : ℚ
  available_margin : ℚ
  balance : ℚ
  leveraged_available_margin : ℚ
  exchange_type : ExchangeType
  position : Position

/-- External indicator library used by variant B (`jesse.indicators`);
`atr`, `adx` and `cmo` are called with their default periods. -/
structure Ind where
  tema : List Bar → Nat → ℚ
  atr : List Bar → ℚ
  adx : List Bar → ℚ
  cmo : List Bar → ℚ

/-- `self.is_long` - the open position is on the long side. -/
def is_long (ctx : Ctx) : Bool :=
  ctx.position.is_open && (ctx.position.side == Side.long)

/-- `self.is_short` - the open position is on the short side. -/
def is_short (ctx : Ctx) : Bool :=
  ctx.position.is_open && (ctx.position.side == Side.short)

/-- `candles_4h` (source lines 29-34): the memoized result of the 4-hour
`get_candles` call; `none` when the call fails, and there is no
fallback. -/
def candles_4h (ctx : Ctx) : Option (List Bar) := ctx.get4h

/-- `short_term_trend` (source lines 36-40). -/
def short_term_trend (hp : HP) (ctx : Ctx) (ind : Ind) : Int :=
  if ind.tema ctx.candles hp.tema_medium_period < ind.tema ctx.candles hp.tema_short_period
  then 1 else -1

/-- `long_term_trend` (source lines 42-46): `none` when the 4-hour
candle fetch failed (the Python property raises in that case). -/
def long_term_trend (hp : HP) (ctx : Ctx) (ind : Ind) : Option Int :=
  (candles_4h ctx).map fun c4 =>
    if ind.tema c4 hp.tema_long_4h_long < ind.tema c4 hp.tema_long_4h_short
    then 1 else -1

/-- `self.atr` (source lines 64-66). -/
def atr (ctx : Ctx) (ind : Ind) : ℚ := ind.atr ctx.candles

/-- `self.adx` (source lines 68-70). -/
def adx (ctx : Ctx) (ind : Ind) : ℚ := ind.adx ctx.candles

/-- `self.cmo` (source lines 72-74). -/
def cmo (ctx : Ctx) (ind : Ind) : ℚ := ind.cmo ctx.candles

/-- `should_long` (source lines 76-82).  Python's `and` short-circuits,
so the fallible `long_term_trend` is only reached when the short-term
trend is already bullish; `none` models the propagated exception. -/
def should_long (hp : HP) (ctx : Ctx) (ind : Ind) : Option Bool :=
  if short_term_trend hp ctx ind = 1 then
    match long_term_trend hp ctx ind with
    | none => none
    | some lt =>
        some (decide (lt = 1) &&
              decide (hp.adx_threshold < adx ctx ind) &&
              decide (hp.cmo_upper_threshold < cmo ctx ind))
  else some false

/-- `should_short` (source lines 84-90), with the same short-circuit
structure as `should_long`. -/
def should_short (hp : HP) (ctx : Ctx) (ind : Ind) : Option Bool :=
  if short_term_trend hp ctx ind = -1 then
    match long_term_trend hp ctx ind with
    | none => none
    | some lt =>
        some (decide (lt = -1) &&
              decide (hp.adx_threshold < adx ctx ind) &&
              decide (cmo ctx ind < hp.cmo_lower_threshold))
  else some false

/-- `go_long` (source lines 92-104): `some (qty, price)` models the
unconditional `self.buy` assignment. -/
def go_long (hp : HP) (ctx : Ctx) (ind : Ind) (u : Utils) : Option (ℚ × ℚ) :=
  let entry_price := ctx.price - atr ctx ind * hp.entry_atr_offset
  let stop_loss_price := entry_price - atr ctx ind * hp.stop_loss_atr_mult
  let qty := u.risk_to_qty ctx.available_margin hp.risk_percentage entry_price
    stop_loss_price ctx.fee_rate
  some (qty * hp.position_multiplier, entry_price)

/-- `go_short` (source lines 106-118): `some (qty, price)` models the
unconditional `self.sell` assignment. -/
def go_short (hp : HP) (ctx : Ctx) (ind : Ind) (u : Utils) : Option (ℚ × ℚ) :=
  let entry_price := ctx.price + atr ctx ind * hp.entry_atr_offset
  let stop_loss_price := entry_price + atr ctx ind * hp.stop_loss_atr_mult
  let qty := u.risk_to_qty ctx.available_margin hp.risk_percentage entry_price
    stop_loss_price ctx.fee_rate
  some (qty * hp.position_multiplier, entry_price)

/-- Claim-side variant of `go_long` following the specification wording
for the capital source: leveraged available margin on margin/futures
instruments and plain balance on spot (spec section 4.3).  Used to
compare the code's capital selection against the claimed one. -/
def go_long_specCapital (hp : HP) (ctx : Ctx) (ind : Ind) (u : Utils) : Option (ℚ × ℚ) :=
  let entry_price := ctx.price - atr ctx ind * hp.entry_atr_offset
  let stop_loss_price := entry_price - atr ctx ind * hp.stop_loss_atr_mult
  let capital := spec_capital_source ctx.exchange_type ctx.balance ctx.leveraged_available_margin
  let qty := u.risk_to_qty capital hp.risk_percentage entry_price
    stop_loss_price ctx.fee_rate
  some (qty * hp.position_multiplier, entry_price)

/-- `on_open_position` (source lines 123-132): the pair of
(`self.stop_loss`, `self.take_profit`) assignments, `none` when neither
branch is taken. -/
def on_open_position (hp : HP) (ctx : Ctx) (ind : Ind) :
    Option ((ℚ × ℚ) × (ℚ × ℚ)) :=
  let atr_stop := atr ctx ind * hp.stop_loss_atr_mult
  let atr_tp := atr ctx ind * hp.take_profit_atr_mult
  if is_long ctx then
    some ((ctx.position.qty, ctx.position.entry_price - atr_stop),
          (ctx.position.qty, ctx.position.entry_price + atr_tp))
  else if is_short ctx then
    some ((ctx.position.qty, ctx.position.entry_price + atr_stop),
          (ctx.position.qty, ctx.position.entry_price - atr_tp))
  else none

end TemaTF

/-! Concrete framework states, indicator providers and sizing utilities
used to evaluate the definitions on explicit inputs. -/

/-- An open long position of 5 units entered at price 100. -/
def posLong : Position := ⟨true, Side.long, 5, 100⟩

/-- An open short position of 5 units entered at price 100. -/
def posShort : Position := ⟨true, Side.short, 5, 100⟩

/-- Sizing utilities that always return a zero quantity. -/
def uZero : Utils := ⟨fun _ _ _ _ _ => 0, fun _ _ _ => 0⟩

/-- Sizing utilities whose risk sizing returns the capital itself,
making the capital figure fed into it observable in the output. -/
def uCap : Utils := ⟨fun c _ _ _ _ => c, fun s _ _ => s⟩

/-- Variant A hyperparameters for the end-to-end scenario: the code
defaults with the trend and volume filters disabled. -/
def scenarioHP : RSI5Min.HP :=
  { RSI5Min.defaultHP with use_trend_filter := false, use_volume_filter := false }

/-- Variant A indicators: RSI 25, RSI history [50, 52, 54, 56] (bullish
momentum), EMAs 100, volume SMA 10, ATR 1. -/
def indA_scenario : RSI5Min.Ind :=
  ⟨fun _ _ => 25, fun _ _ => [50, 52, 54, 56], fun _ _ => 100,
   fun _ _ => 10, fun _ _ => 1⟩

/-- Variant A indicators with RSI history [50, 48, 52, 49] (two of three
pairwise decreases). -/
def indA_bearseq : RSI5Min.Ind :=
  ⟨fun _ _ => 50, fun _ _ => [50, 48, 52, 49], fun _ _ => 100,
   fun _ _ => 10, fun _ _ => 1⟩

/-- Variant A framework state: futures account, close 100, open long
position, no 15-minute candles, no liquidation price. -/
def ctxA_base : RSI5Min.Ctx :=
  ⟨[], none, 100, 0, 0, ExchangeType.futures, 1000, 2000, 0, none, posLong, none⟩

/-- Variant A framework state at bar 60 with a liquidation price of 95
and an entry recorded at bar 10. -/
def ctxA_liq : RSI5Min.Ctx :=
  ⟨[], none, 100, 0, 60, ExchangeType.futures, 1000, 2000, 0, some 95, posLong, some 10⟩

/-- Variant A framework state on a spot exchange. -/
def ctxA_spot : RSI5Min.Ctx :=
  { ctxA_base with exchange_type := ExchangeType.spot }

/-- Variant B indicators with a bullish primary TEMA crossover (TEMA 10
above TEMA 80), ATR 1, ADX 50, CMO -50. -/
def indB_one : TemaTF.Ind :=
  ⟨fun _ n => if n = 10 then 2 else 1, fun _ => 1, fun _ => 50, fun _ => -50⟩

/-- Variant B indicators with bearish crossovers on both timeframes
(short-period TEMAs below long-period TEMAs), ATR 1, ADX 50, CMO -50. -/
def indB_short : TemaTF.Ind :=
  ⟨fun _ n => if n = 10 then 1 else if n = 20 then 1 else 2,
   fun _ => 1, fun _ => 50, fun _ => -50⟩

/-- Variant B framework state: futures account, price 100, available
margin 100, balance 50, leveraged available margin 200, 4-hour candles
present, open long position. -/
def ctxB_fut : TemaTF.Ctx :=
  ⟨[], some [], 100, 0, 100, 50, 200, ExchangeType.futures, posLong⟩

/-- Variant B framework state on a spot exchange. -/
def ctxB_spot : TemaTF.Ctx :=
  { ctxB_fut with exchange_type := ExchangeType.spot }

/-- Variant B framework state where the 4-hour candle fetch fails. -/
def ctxB_no4h : TemaTF.Ctx :=
  { ctxB_fut with get4h := none }

/-! Helper lemmas shared by the claim theorems. -/

/-- In variant A a position on the short side is not long. -/
lemma isLong_false_of_isShort_A (ctx : RSI5Min.Ctx)
    (h : RSI5Min.is_short ctx = true) : RSI5Min.is_long ctx = false := by
  unfold RSI5Min.is_long RSI5Min.is_short at *
  cases hs : ctx.position.side <;> simp [hs] at h ⊢

/-- In variant A a position on the long side is not short. -/
lemma isShort_false_of_isLong_A (ctx : RSI5Min.Ctx)
    (h : RSI5Min.is_long ctx = true) : RSI5Min.is_short ctx = false := by
  unfold RSI5Min.is_long RSI5Min.is_short at *
  cases hs : ctx.position.side <;> simp [hs] at h ⊢

/-- The last `n` elements of a list of length at least `n` number `n`. -/
lemma lastN_length_of_le (l : List ℚ) (n : Nat) (h : n ≤ l.length) :
    (lastN l n).length = n := by
  simp [lastN]
  omega

/-- With enough history, bullish RSI momentum holds iff the number of
pairwise increases over the last `rsi_momentum_period + 1` readings
reaches the floor-division majority threshold. -/
lemma momentum_bullish_iff (hp : RSI5Min.HP) (ctx : RSI5Min.Ctx) (ind : RSI5Min.Ind)
    (h : hp.rsi_momentum_period + 1 ≤ (RSI5Min.rsi_seq hp ctx ind).length) :
    RSI5Min.rsi_momentum_bullish hp ctx ind = true ↔
      hp.rsi_momentum_period / 2 ≤
        countIncreases (lastN (RSI5Min.rsi_seq hp ctx ind) (hp.rsi_momentum_period + 1)) := by
  unfold RSI5Min.rsi_momentum_bullish
  rw [if_neg (by omega)]
  rw [decide_eq_true_eq, lastN_length_of_le _ _ h]
  simp [ge_iff_le]

/-- With enough history, bearish RSI momentum holds iff the number of
pairwise decreases over the last `rsi_momentum_period + 1` readings
reaches the floor-division majority threshold. -/
lemma momentum_bearish_iff (hp : RSI5Min.HP) (ctx : RSI5Min.Ctx) (ind : RSI5Min.Ind)
    (h : hp.rsi_momentum_period + 1 ≤ (RSI5Min.rsi_seq hp ctx ind).length) :
    RSI5Min.rsi_momentum_bearish hp ctx ind = true ↔
      hp.rsi_momentum_period / 2 ≤
        countDecreases (lastN (RSI5Min.rsi_seq hp ctx ind) (hp.rsi_momentum_period + 1)) := by
  unfold RSI5Min.rsi_momentum_bearish
  rw [if_neg (by omega)]
  rw [decide_eq_true_eq, lastN_length_of_le _ _ h]
  simp [ge_iff_le]

/-- C1: for every position fill in either strategy variant, with ATR > 0
and positive stop-loss and take-profit ATR multipliers,
`on_open_position` registers a stop-loss strictly below the entry price
and a take-profit strictly above it for a long position, and a stop-loss
strictly above the entry price and a take-profit strictly below it for a
short position. -/
theorem claim1_protective_levels_side_correct
    (hpA : RSI5Min.HP) (ctxA : RSI5Min.Ctx) (indA : RSI5Min.Ind)
    (hpB : TemaTF.HP) (ctxB : TemaTF.Ctx) (indB : TemaTF.Ind)
    (hAatr : 0 < RSI5Min.atr hpA ctxA indA)
    (hAsl : 0 < hpA.stop_loss_atr_mult) (hAtp : 0 < hpA.take_profit_atr_mult)
    (hAopen : ctxA.position.is_open = true)
    (hBatr : 0 < TemaTF.atr ctxB indB)
    (hBsl : 0 < hpB.stop_loss_atr_mult) (hBtp : 0 < hpB.take_profit_atr_mult)
    (hBopen : ctxB.position.is_open = true) :
    (ctxA.position.side = Side.long →
      (RSI5Min.on_open_position hpA ctxA indA).1.2 < ctxA.position.entry_price ∧
      ctxA.position.entry_price < (RSI5Min.on_open_position hpA ctxA indA).2.2) ∧
    (ctxA.position.side = Side.short →
      ctxA.position.entry_price < (RSI5Min.on_open_position hpA ctxA indA).1.2 ∧
      (RSI5Min.on_open_position hpA ctxA indA).2.2 < ctxA.position.entry_price) ∧
    (ctxB.position.side = Side.long →
      ∃ r, TemaTF.on_open_position hpB ctxB indB = some r ∧
        r.1.2 < ctxB.position.entry_price ∧ ctxB.position.entry_price < r.2.2) ∧
    (ctxB.position.side = Side.short →
      ∃ r, TemaTF.on_open_position hpB ctxB indB = some r ∧
        ctxB.position.entry_price < r.1.2 ∧ r.2.2 < ctxB.position.entry_price) := by
  have hA1 : 0 < RSI5Min.atr hpA ctxA indA * hpA.stop_loss_atr_mult := mul_pos hAatr hAsl
  have hA2 : 0 < RSI5Min.atr hpA ctxA indA * hpA.take_profit_atr_mult := mul_pos hAatr hAtp
  have hB1 : 0 < TemaTF.atr ctxB indB * hpB.stop_loss_atr_mult := mul_pos hBatr hBsl
  have hB2 : 0 < TemaTF.atr ctxB indB * hpB.take_profit_atr_mult := mul_pos hBatr hBtp
  refine ⟨?_, ?_, ?_, ?_⟩
  · intro hside
    have hl : RSI5Min.is_long ctxA = true := by simp [RSI5Min.is_long, hAopen, hside]
    simp only [RSI5Min.on_open_position, hl, if_true]
    constructor <;> simp <;> linarith
  · intro hside
    have hl : RSI5Min.is_long ctxA = false := by simp [RSI5Min.is_long, hside]
    simp only [RSI5Min.on_open_position, hl]
    constructor <;> simp <;> linarith
  · intro hside
    have hl : TemaTF.is_long ctxB = true := by simp [TemaTF.is_long, hBopen, hside]
    simp only [TemaTF.on_open_position, hl, if_true]
    refine ⟨_, rfl, ?_, ?_⟩ <;> simp <;> linarith
  · intro hside
    have hl : TemaTF.is_long ctxB = false := by simp [TemaTF.is_long, hside]
    have hs : TemaTF.is_short ctxB = true := by simp [TemaTF.is_short, hBopen, hside]
    simp only [TemaTF.on_open_position, hl, hs, if_true, Bool.false_eq_true, if_false]
    refine ⟨_, rfl, ?_, ?_⟩ <;> simp <;> linarith

/-- Witness for C1: at the concrete long fills of both variants the
hypotheses hold and the stop-loss lies strictly below the entry price. -/
theorem claim1_witness :
    (0:ℚ) < RSI5Min.atr RSI5Min.defaultHP ctxA_base indA_scenario ∧
    (RSI5Min.on_open_position RSI5Min.defaultHP ctxA_base indA_scenario).1.2 < 100 ∧
    (∃ r, TemaTF.on_open_position TemaTF.defaultHP ctxB_fut indB_one = some r ∧
      r.1.2 < 100) := by
  have h := claim1_protective_levels_side_correct RSI5Min.defaultHP ctxA_base indA_scenario
    TemaTF.defaultHP ctxB_fut indB_one (by decide) (by decide) (by decide) rfl
    (by decide) (by decide) (by decide) rfl
  refine ⟨by decide, (h.1 rfl).1, ?_⟩
  obtain ⟨r, hr, h1, _⟩ := h.2.2.1 rfl
  exact ⟨r, hr, h1⟩

/-- C9: the max-capital-per-trade clamp of variant A is idempotent. -/
theorem claim9_clamp_idempotent (q m : ℚ) :
    RSI5Min.clamp_qty (RSI5Min.clamp_qty q m) m = RSI5Min.clamp_qty q m := by
  simp [RSI5Min.clamp_qty, min_assoc]

/-- Counterexample to C2: in the claimed end-to-end scenario (default
hyperparameters, trend and volume filters disabled, RSI 25, bullish
momentum, ATR 1, entry price 100 = close) `should_long()` is true, but
the registered stop-loss is 98 = close - 2.0 x ATR, not
close - 2.5 x ATR = 97.5, and the take-profit is 103 = close + 3.0 x ATR,
not close + 3.5 x ATR = 103.5. -/
theorem claim2_default_multipliers_counterexample :
    RSI5Min.should_long scenarioHP ctxA_base indA_scenario = true ∧
    (RSI5Min.on_open_position scenarioHP ctxA_base indA_scenario).1.2 = 98 ∧
    ((98:ℚ) ≠ ctxA_base.close - 5/2 * RSI5Min.atr scenarioHP ctxA_base indA_scenario) ∧
    (RSI5Min.on_open_position scenarioHP ctxA_base indA_scenario).2.2 = 103 ∧
    ((103:ℚ) ≠ ctxA_base.close + 7/2 * RSI5Min.atr scenarioHP ctxA_base indA_scenario) := by
  have hatr : RSI5Min.atr scenarioHP ctxA_base indA_scenario = 1 := rfl
  have hfix : RSI5Min.on_open_position scenarioHP ctxA_base indA_scenario = ((5, 98), (5, 103)) := by
    norm_num [RSI5Min.on_open_position, RSI5Min.is_long, RSI5Min.atr, ctxA_base, posLong,
      indA_scenario, scenarioHP, RSI5Min.defaultHP]
  refine ⟨by decide, ?_, ?_, ?_, ?_⟩
  · rw [hfix]
  · rw [hatr]; norm_num [ctxA_base]
  · rw [hfix]
  · rw [hatr]; norm_num [ctxA_base]

/-- C2 (amended): in variant A under the default hyperparameters with
the trend and volume filters disabled, for every bar where RSI = 25 and
bullish RSI momentum is confirmed, `should_long()` returns true, and a
long fill carries stop-loss = entry - 2.0 x ATR and
take-profit = entry + 3.0 x ATR (the code defaults, not 2.5/3.5). -/
theorem claim2_amended_scenario (ctx : RSI5Min.Ctx) (ind : RSI5Min.Ind)
    (hrsi : RSI5Min.rsi scenarioHP ctx ind = 25)
    (hmom : RSI5Min.rsi_momentum_bullish scenarioHP ctx ind = true) :
    RSI5Min.should_long scenarioHP ctx ind = true ∧
    (ctx.position.is_open = true → ctx.position.side = Side.long →
      (RSI5Min.on_open_position scenarioHP ctx ind).1.2 =
        ctx.position.entry_price - 2 * RSI5Min.atr scenarioHP ctx ind ∧
      (RSI5Min.on_open_position scenarioHP ctx ind).2.2 =
        ctx.position.entry_price + 3 * RSI5Min.atr scenarioHP ctx ind) := by
  have hso : scenarioHP.rsi_oversold = 30 := rfl
  have hut : scenarioHP.use_trend_filter = false := rfl
  have huv : scenarioHP.use_volume_filter = false := rfl
  have hsl : scenarioHP.stop_loss_atr_mult = 2 := rfl
  have htp : scenarioHP.take_profit_atr_mult = 3 := rfl
  constructor
  · norm_num [RSI5Min.should_long, RSI5Min.volume_confirmation, hrsi, hmom, hso, hut, huv]
  · intro ho hs
    have hl : RSI5Min.is_long ctx = true := by simp [RSI5Min.is_long, ho, hs]
    simp only [RSI5Min.on_open_position, hl, if_true]
    constructor <;> simp [hsl, htp] <;> ring

/-- Witness for C2 (amended): the concrete scenario state satisfies the
hypotheses and `should_long()` evaluates to true with stop-loss 98. -/
theorem claim2_witness :
    RSI5Min.rsi scenarioHP ctxA_base indA_scenario = 25 ∧
    RSI5Min.rsi_momentum_bullish scenarioHP ctxA_base indA_scenario = true ∧
    RSI5Min.should_long scenarioHP ctxA_base indA_scenario = true ∧
    (RSI5Min.on_open_position scenarioHP ctxA_base indA_scenario).1.2 =
      ctxA_base.position.entry_price - 2 * RSI5Min.atr scenarioHP ctxA_base indA_scenario := by
  have h := claim2_amended_scenario ctxA_base indA_scenario (by decide) (by decide)
  exact ⟨by decide, by decide, h.1, (h.2 rfl rfl).1⟩

/-- Counterexample to C3: with the default momentum period 3 and the
last four RSI readings [50, 48, 52, 49], `rsi_momentum_bearish()`
returns true (2 of 3 pairwise decreases meets the floor-division
threshold 1), not false as claimed. -/
theorem claim3_bearish_example_counterexample :
    RSI5Min.defaultHP.rsi_momentum_period = 3 ∧
    lastN (RSI5Min.rsi_seq RSI5Min.defaultHP ctxA_base indA_bearseq) 4 = [50, 48, 52, 49] ∧
    RSI5Min.rsi_momentum_bearish RSI5Min.defaultHP ctxA_base indA_bearseq = true := by
  refine ⟨rfl, by decide, by decide⟩

/-- C3 (amended): with momentum period 3, `rsi_momentum_bullish()` is
true on last readings [50, 52, 54, 56] and `rsi_momentum_bearish()` is
true on [50, 48, 52, 49]; in general, with enough history the momentum
check confirms exactly when the count of pairwise increases (bullish)
resp. decreases (bearish) over the last `momentum_period + 1` readings
is at least half the comparisons under integer floor division. -/
theorem claim3_amended_momentum_rule :
    (∀ (hp : RSI5Min.HP) (ctx : RSI5Min.Ctx) (ind : RSI5Min.Ind),
      hp.rsi_momentum_period = 3 →
      4 ≤ (RSI5Min.rsi_seq hp ctx ind).length →
      lastN (RSI5Min.rsi_seq hp ctx ind) 4 = [50, 52, 54, 56] →
      RSI5Min.rsi_momentum_bullish hp ctx ind = true) ∧
    (∀ (hp : RSI5Min.HP) (ctx : RSI5Min.Ctx) (ind : RSI5Min.Ind),
      hp.rsi_momentum_period = 3 →
      4 ≤ (RSI5Min.rsi_seq hp ctx ind).length →
      lastN (RSI5Min.rsi_seq hp ctx ind) 4 = [50, 48, 52, 49] →
      RSI5Min.rsi_momentum_bearish hp ctx ind = true) ∧
    (∀ (hp : RSI5Min.HP) (ctx : RSI5Min.Ctx) (ind : RSI5Min.Ind),
      hp.rsi_momentum_period + 1 ≤ (RSI5Min.rsi_seq hp ctx ind).length →
      (RSI5Min.rsi_momentum_bullish hp ctx ind = true ↔
        hp.rsi_momentum_period / 2 ≤
          countIncreases (lastN (RSI5Min.rsi_seq hp ctx ind) (hp.rsi_momentum_period + 1)))) ∧
    (∀ (hp : RSI5Min.HP) (ctx : RSI5Min.Ctx) (ind : RSI5Min.Ind),
      hp.rsi_momentum_period + 1 ≤ (RSI5Min.rsi_seq hp ctx ind).length →
      (RSI5Min.rsi_momentum_bearish hp ctx ind = true ↔
        hp.rsi_momentum_period / 2 ≤
          countDecreases (lastN (RSI5Min.rsi_seq hp ctx ind) (hp.rsi_momentum_period + 1)))) ∧
    (∀ (hp : RSI5Min.HP) (ctx : RSI5Min.Ctx) (ind : RSI5Min.Ind),
      (RSI5Min.rsi_seq hp ctx ind).length < hp.rsi_momentum_period + 1 →
      RSI5Min.rsi_momentum_bullish hp ctx ind = false ∧
      RSI5Min.rsi_momentum_bearish hp ctx ind = false) := by
  refine ⟨?_, ?_, ?_, ?_, ?_⟩
  · intro hp ctx ind h3 hlen hlast
    have hiff := momentum_bullish_iff hp ctx ind (by omega)
    rw [h3] at hiff
    rw [hiff]
    norm_num
    rw [hlast]
    decide
  · intro hp ctx ind h3 hlen hlast
    have hiff := momentum_bearish_iff hp ctx ind (by omega)
    rw [h3] at hiff
    rw [hiff]
    norm_num
    rw [hlast]
    decide
  · exact momentum_bullish_iff
  · exact momentum_bearish_iff
  · intro hp ctx ind h
    constructor
    · unfold RSI5Min.rsi_momentum_bullish
      rw [if_pos h]
    · unfold RSI5Min.rsi_momentum_bearish
      rw [if_pos h]

/-- Witness for C3 (amended): the hypotheses hold at the concrete
bullish sequence and the momentum check confirms. -/
theorem claim3_witness :
    RSI5Min.defaultHP.rsi_momentum_period = 3 ∧
    RSI5Min.rsi_momentum_bullish RSI5Min.defaultHP ctxA_base indA_scenario = true :=
  ⟨rfl, claim3_amended_momentum_rule.1 RSI5Min.defaultHP ctxA_base indA_scenario rfl
    (by decide) (by decide)⟩

/-- Counterexample to C4: in variant B, when the 4-hour candle fetch
fails and the primary trend is bullish, `should_long()` propagates the
failure (no verdict) instead of falling back to the primary timeframe. -/
theorem claim4_variant_b_propagates_counterexample :
    ctxB_no4h.get4h = none ∧
    TemaTF.should_long TemaTF.defaultHP ctxB_no4h indB_one = none := by
  exact ⟨rfl, by decide⟩

/-- C4 (amended): variant A recovers from a failed 15-minute candle
fetch by computing the same EMA on the primary timeframe, so no error
escapes; variant B has no fallback: a failed 4-hour candle fetch
propagates out of `should_long()`/`should_short()` whenever the primary
short-term trend agrees with the tested direction. -/
theorem claim4_amended_fallback :
    (∀ (hp : RSI5Min.HP) (ctx : RSI5Min.Ctx) (ind : RSI5Min.Ind),
      ctx.get15m = none →
      RSI5Min.higher_tf_ema hp ctx ind = ind.ema ctx.candles hp.higher_tf_period) ∧
    (∀ (hp : TemaTF.HP) (ctx : TemaTF.Ctx) (ind : TemaTF.Ind),
      ctx.get4h = none →
      (TemaTF.short_term_trend hp ctx ind = 1 →
        TemaTF.should_long hp ctx ind = none) ∧
      (TemaTF.short_term_trend hp ctx ind = -1 →
        TemaTF.should_short hp ctx ind = none)) := by
  constructor
  · intro hp ctx ind h
    simp [RSI5Min.higher_tf_ema, h]
  · intro hp ctx ind h
    constructor <;> intro hs <;>
      simp [TemaTF.should_long, TemaTF.should_short, TemaTF.long_term_trend,
        TemaTF.candles_4h, h, hs]

/-- Witness for C4 (amended): at the concrete states the hypotheses
hold, variant A falls back to the primary-timeframe EMA, and variant B
yields no verdict. -/
theorem claim4_witness :
    ctxA_base.get15m = none ∧
    RSI5Min.higher_tf_ema RSI5Min.defaultHP ctxA_base indA_scenario =
      indA_scenario.ema ctxA_base.candles RSI5Min.defaultHP.higher_tf_period ∧
    ctxB_no4h.get4h = none ∧
    TemaTF.should_long TemaTF.defaultHP ctxB_no4h indB_one = none :=
  ⟨rfl, claim4_amended_fallback.1 RSI5Min.defaultHP ctxA_base indA_scenario rfl, rfl,
    (claim4_amended_fallback.2 TemaTF.defaultHP ctxB_no4h indB_one rfl).1 (by decide)⟩

/-- Counterexample to C5: in variant B, with risk sizing returning
quantity 0 (non-positive), `go_long` still assigns the buy order
(0 units at the offset entry price 99). -/
theorem claim5_variant_b_places_order_counterexample :
    TemaTF.go_long TemaTF.defaultHP ctxB_fut indB_one uZero = some (0, 99) ∧
    ((0:ℚ) ≤ 0) := by
  refine ⟨?_, le_refl 0⟩
  norm_num [TemaTF.go_long, TemaTF.atr, ctxB_fut, indB_one, uZero, TemaTF.defaultHP]

/-- C5 (amended): in variant A, whenever the quantity computed after
risk sizing and the safety clamp is non-positive, `go_long` and
`go_short` place no order and raise no error; variant B has no such
guard - its `go_long` and `go_short` always assign an order. -/
theorem claim5_amended_skip :
    (∀ (hp : RSI5Min.HP) (ctx : RSI5Min.Ctx) (ind : RSI5Min.Ind) (u : Utils),
      RSI5Min.final_qty_long hp ctx ind u ≤ 0 →
      RSI5Min.go_long hp ctx ind u = none) ∧
    (∀ (hp : RSI5Min.HP) (ctx : RSI5Min.Ctx) (ind : RSI5Min.Ind) (u : Utils),
      RSI5Min.final_qty_short hp ctx ind u ≤ 0 →
      RSI5Min.go_short hp ctx ind u = none) ∧
    (∀ (hp : TemaTF.HP) (ctx : TemaTF.Ctx) (ind : TemaTF.Ind) (u : Utils),
      (TemaTF.go_long hp ctx ind u).isSome = true ∧
      (TemaTF.go_short hp ctx ind u).isSome = true) := by
  refine ⟨?_, ?_, ?_⟩
  · intro hp ctx ind u h
    simp [RSI5Min.go_long, h]
  · intro hp ctx ind u h
    simp [RSI5Min.go_short, h]
  · intro hp ctx ind u
    exact ⟨rfl, rfl⟩

/-- Witness for C5 (amended): with zero-returning sizing utilities the
clamped quantity is non-positive and variant A places no order. -/
theorem claim5_witness :
    RSI5Min.final_qty_long RSI5Min.defaultHP ctxA_base indA_scenario uZero ≤ 0 ∧
    RSI5Min.go_long RSI5Min.defaultHP ctxA_base indA_scenario uZero = none :=
  ⟨by decide, claim5_amended_skip.1 RSI5Min.defaultHP ctxA_base indA_scenario uZero (by decide)⟩

/-- Counterexample to C6: on a futures account with available margin 100
and leveraged available margin 200, variant B's `go_long` feeds the
plain available margin into risk sizing (quantity 100 x 3 = 300), not
the leveraged margin the claim requires (which would give 600). -/
theorem claim6_variant_b_capital_counterexample :
    ctxB_fut.exchange_type = ExchangeType.futures ∧
    TemaTF.go_long TemaTF.defaultHP ctxB_fut indB_one uCap = some (300, 99) ∧
    TemaTF.go_long_specCapital TemaTF.defaultHP ctxB_fut indB_one uCap = some (600, 99) ∧
    TemaTF.go_long TemaTF.defaultHP ctxB_fut indB_one uCap ≠
      TemaTF.go_long_specCapital TemaTF.defaultHP ctxB_fut indB_one uCap := by
  have h1 : TemaTF.go_long TemaTF.defaultHP ctxB_fut indB_one uCap = some (300, 99) := by
    norm_num [TemaTF.go_long, TemaTF.atr, ctxB_fut, indB_one, uCap, TemaTF.defaultHP]
  have h2 : TemaTF.go_long_specCapital TemaTF.defaultHP ctxB_fut indB_one uCap
      = some (600, 99) := by
    norm_num [TemaTF.go_long_specCapital, TemaTF.atr, spec_capital_source, ctxB_fut,
      indB_one, uCap, TemaTF.defaultHP]
  refine ⟨rfl, h1, h2, ?_⟩
  rw [h1, h2]
  norm_num

/-- C6 (amended): in variant A the capital fed into risk sizing is the
leveraged available margin on futures and the plain balance on spot
(and spot shorts are skipped before sizing); in variant B `go_long` and
`go_short` ignore the balance and the leveraged available margin
entirely, always feeding the plain available margin. -/
theorem claim6_amended_capital_source :
    (∀ ctx : RSI5Min.Ctx,
      RSI5Min.capital_long ctx =
        spec_capital_source ctx.exchange_type ctx.balance ctx.leveraged_available_margin) ∧
    (∀ ctx : RSI5Min.Ctx, ctx.exchange_type = ExchangeType.futures →
      RSI5Min.capital_short ctx =
        spec_capital_source ctx.exchange_type ctx.balance ctx.leveraged_available_margin) ∧
    (∀ (hp : RSI5Min.HP) (ctx : RSI5Min.Ctx) (ind : RSI5Min.Ind) (u : Utils),
      ctx.exchange_type = ExchangeType.spot →
      RSI5Min.go_short hp ctx ind u = none) ∧
    (∀ (hp : TemaTF.HP) (ctx : TemaTF.Ctx) (ind : TemaTF.Ind) (u : Utils) (b lev : ℚ),
      TemaTF.go_long hp { ctx with balance := b, leveraged_available_margin := lev } ind u =
        TemaTF.go_long hp ctx ind u ∧
      TemaTF.go_short hp { ctx with balance := b, leveraged_available_margin := lev } ind u =
        TemaTF.go_short hp ctx ind u) := by
  refine ⟨?_, ?_, ?_, ?_⟩
  · intro ctx
    cases h : ctx.exchange_type <;> simp [RSI5Min.capital_long, spec_capital_source, h]
  · intro ctx h
    simp [RSI5Min.capital_short, spec_capital_source, h]
  · intro hp ctx ind u h
    simp [RSI5Min.go_short, h]
  · intro hp ctx ind u b lev
    cases ctx
    exact ⟨rfl, rfl⟩

/-- Witness for C6 (amended): on the concrete spot state variant A's
long capital is the plain balance and `go_short` places no order. -/
theorem claim6_witness :
    ctxA_spot.exchange_type = ExchangeType.spot ∧
    RSI5Min.capital_long ctxA_spot = ctxA_spot.balance ∧
    RSI5Min.go_short RSI5Min.defaultHP ctxA_spot indA_scenario uCap = none := by
  refine ⟨rfl, ?_, claim6_amended_capital_source.2.2.1 RSI5Min.defaultHP ctxA_spot
    indA_scenario uCap rfl⟩
  rw [claim6_amended_capital_source.1 ctxA_spot]
  rfl

/-- C7: for every bar with an open position in variant A,
`update_position` evaluates its exit triggers in the fixed priority
order liquidation-proximity guard, max-hold timeout, RSI exhaustion,
trend reversal; the first trigger that fires short-circuits all
lower-priority ones, and at most one liquidate instruction is issued. -/
theorem claim7_exit_priority (hp : RSI5Min.HP) (ctx : RSI5Min.Ctx) (ind : RSI5Min.Ind)
    (hopen : ctx.position.is_open = true) :
    (RSI5Min.liq_cond ctx = true →
      RSI5Min.update_position hp ctx ind = [RSI5Min.ExitReason.liquidationGuard]) ∧
    (RSI5Min.liq_cond ctx = false → RSI5Min.hold_cond hp ctx = true →
      RSI5Min.update_position hp ctx ind = [RSI5Min.ExitReason.maxHold]) ∧
    (RSI5Min.liq_cond ctx = false → RSI5Min.hold_cond hp ctx = false →
      RSI5Min.exhaustion_trigger hp ctx ind = true →
      RSI5Min.update_position hp ctx ind = [RSI5Min.ExitReason.rsiExhaustion]) ∧
    (RSI5Min.liq_cond ctx = false → RSI5Min.hold_cond hp ctx = false →
      RSI5Min.exhaustion_trigger hp ctx ind = false →
      RSI5Min.trend_trigger hp ctx ind = true →
      RSI5Min.update_position hp ctx ind = [RSI5Min.ExitReason.trendReversal]) ∧
    (RSI5Min.update_position hp ctx ind).length ≤ 1 := by
  refine ⟨?_, ?_, ?_, ?_, ?_⟩
  · intro h1
    simp [RSI5Min.update_position, hopen, h1]
  · intro h1 h2
    simp [RSI5Min.update_position, hopen, h1, h2]
  · intro h1 h2 h3
    rcases Bool.or_eq_true_iff.mp h3 with hl | hs
    · simp [RSI5Min.update_position, hopen, h1, h2, hl]
    · have hlf : RSI5Min.long_exhaust_cond hp ctx ind = false := by
        have := isLong_false_of_isShort_A ctx (Bool.and_eq_true_iff.mp hs).1
        simp [RSI5Min.long_exhaust_cond, this]
      simp [RSI5Min.update_position, hopen, h1, h2, hlf, hs]
  · intro h1 h2 h3 h4
    rcases Bool.or_eq_false_iff.mp h3 with ⟨hle, hse⟩
    rcases Bool.or_eq_true_iff.mp h4 with hl | hs
    · simp [RSI5Min.update_position, hopen, h1, h2, hle, hse, hl]
    · have hsshort : RSI5Min.is_short ctx = true :=
        (Bool.and_eq_true_iff.mp (Bool.and_eq_true_iff.mp (Bool.and_eq_true_iff.mp hs).1).1).2
      have hlf : RSI5Min.long_trend_cond hp ctx ind = false := by
        have := isLong_false_of_isShort_A ctx hsshort
        simp [RSI5Min.long_trend_cond, this]
      simp [RSI5Min.update_position, hopen, h1, h2, hle, hse, hlf, hs]
  · unfold RSI5Min.update_position
    repeat' split
    all_goals simp

/-- Witness for C7: on the concrete bar where the liquidation guard
fires (close 100 within 10% of liquidation price 95, max-hold also
expired), exactly the liquidation-guard exit is issued. -/
theorem claim7_witness :
    RSI5Min.liq_cond ctxA_liq = true ∧
    RSI5Min.update_position RSI5Min.defaultHP ctxA_liq indA_scenario =
      [RSI5Min.ExitReason.liquidationGuard] := by
  have hliq : RSI5Min.liq_cond ctxA_liq = true := by
    norm_num [RSI5Min.liq_cond, RSI5Min.is_long, RSI5Min.is_short, ctxA_liq, posLong]
  exact ⟨hliq, (claim7_exit_priority RSI5Min.defaultHP ctxA_liq indA_scenario rfl).1 hliq⟩

/-- Counterexample to C8: variant B's `should_short()` performs no spot
check - on a spot exchange with bearish crossovers on both timeframes,
ADX 50 above threshold and CMO -50 below the lower threshold, it
returns true. -/
theorem claim8_variant_b_spot_counterexample :
    ctxB_spot.exchange_type = ExchangeType.spot ∧
    TemaTF.should_short TemaTF.defaultHP ctxB_spot indB_short = some true := by
  exact ⟨rfl, by decide⟩

/-- C8 (amended): in variant A, `should_short()` returns false on a spot
exchange regardless of all other inputs; variant B has no such
suppression and its `should_short()` can return true on a spot
exchange. -/
theorem claim8_amended_spot_suppression :
    (∀ (hp : RSI5Min.HP) (ctx : RSI5Min.Ctx) (ind : RSI5Min.Ind),
      ctx.exchange_type = ExchangeType.spot →
      RSI5Min.should_short hp ctx ind = false) ∧
    (ctxB_spot.exchange_type = ExchangeType.spot ∧
      TemaTF.should_short TemaTF.defaultHP ctxB_spot indB_short = some true) := by
  refine ⟨?_, rfl, by decide⟩
  intro hp ctx ind h
  simp [RSI5Min.should_short, h]

/-- Witness for C8 (amended): on the concrete spot state variant A
suppresses the short signal. -/
theorem claim8_witness :
    ctxA_spot.exchange_type = ExchangeType.spot ∧
    RSI5Min.should_short RSI5Min.defaultHP ctxA_spot indA_scenario = false :=
  ⟨rfl, claim8_amended_spot_suppression.1 RSI5Min.defaultHP ctxA_spot indA_scenario rfl⟩

/-- C10: in variant A, for every hyperparameter set within the declared
bounds (in particular oversold at most 35 and overbought at least 65),
`should_long()` and `should_short()` are never both true on the same
bar; in variant B the two signals are likewise mutually exclusive. -/
theorem claim10_long_short_exclusive
    (hpA : RSI5Min.HP) (ctxA : RSI5Min.Ctx) (indA : RSI5Min.Ind)
    (hb : RSI5Min.HPInBounds hpA)
    (hpB : TemaTF.HP) (ctxB : TemaTF.Ctx) (indB : TemaTF.Ind) :
    ¬(RSI5Min.should_long hpA ctxA indA = true ∧
      RSI5Min.should_short hpA ctxA indA = true) ∧
    ¬(TemaTF.should_long hpB ctxB indB = some true ∧
      TemaTF.should_short hpB ctxB indB = some true) := by
  constructor
  · rintro ⟨hl, hs⟩
    have h1 : ¬ hpA.rsi_oversold ≤ RSI5Min.rsi hpA ctxA indA := by
      intro hc
      simp [RSI5Min.should_long, hc] at hl
    have h2 : ¬ RSI5Min.rsi hpA ctxA indA ≤ hpA.rsi_overbought := by
      intro hc
      simp [RSI5Min.should_short, hc] at hs
    push_neg at h1 h2
    have hub := hb.rsi_oversold_ub
    have hlb := hb.rsi_overbought_lb
    linarith
  · rintro ⟨hl, hs⟩
    by_cases ht : TemaTF.short_term_trend hpB ctxB indB = 1
    · have hne : ¬ TemaTF.short_term_trend hpB ctxB indB = -1 := by
        rw [ht]; decide
      simp [TemaTF.should_short, hne] at hs
    · simp [TemaTF.should_long, ht] at hl

/-- Witness for C10: the default hyperparameters lie within the declared
bounds, and on the concrete states neither variant signals long and
short simultaneously. -/
theorem claim10_witness :
    RSI5Min.HPInBounds RSI5Min.defaultHP ∧
    ¬(RSI5Min.should_long RSI5Min.defaultHP ctxA_base indA_scenario = true ∧
      RSI5Min.should_short RSI5Min.defaultHP ctxA_base indA_scenario = true) ∧
    ¬(TemaTF.should_long TemaTF.defaultHP ctxB_fut indB_one = some true ∧
      TemaTF.should_short TemaTF.defaultHP ctxB_fut indB_one = some true) := by
  have hb : RSI5Min.HPInBounds RSI5Min.defaultHP := by
    constructor <;> norm_num [RSI5Min.defaultHP]
  have h := claim10_long_short_exclusive RSI5Min.defaultHP ctxA_base indA_scenario hb
    TemaTF.defaultHP ctxB_fut indB_one
  exact ⟨hb, h.1, h.2⟩
